import Mathlib

/-!
Verification of the analysis engine in `lib/analyze.py` of the
`bkaiplugin` repository (AI error-analysis Buildkite plugin).

The Python source is shallowly embedded: each Python helper becomes an
executable Lean definition over `List Char` / `String`, Python `dict`
values parsed from JSON become the inductive `Json`, fallible code
returns `Except`/explicit outcome types.  The specific `re` patterns
used by `_extract_analysis_fields` are embedded by specialised scanning
functions that follow Python's leftmost-match backtracking semantics
for those concrete patterns (ASCII case folding; the source relies only
on ASCII labels).
-/

/-- JSON values as produced by Python `json.loads`.  Python distinguishes
`int` and `float` JSON numbers; source floats only occur as inert data
(temperatures, costs) and are modelled as rationals. -/
inductive Json where
  | null : Json
  | bool (b : Bool) : Json
  | num (n : Int) : Json
  | fnum (q : Rat) : Json
  | str (s : String) : Json
  | arr (xs : List Json) : Json
  | obj (fields : List (String × Json)) : Json

/-- The Python exceptions relevant to `_parse_response`. -/
inductive PyExc where
  | keyError : PyExc
  | indexError : PyExc
  | typeError : PyExc
  | attributeError : PyExc
deriving DecidableEq

/- ### Python string/regex primitives used by `_extract_analysis_fields` -/

/-- Characters matched by Python's `\s` (and stripped by `str.strip()`);
the source only ever meets ASCII whitespace, so the unicode extras of
Python's unicode mode are not modelled. -/
def pyWS (c : Char) : Bool :=
  c = ' ' || c = '\t' || c = '\n' || c = '\r' || c = '\x0b' || c = '\x0c'

/-- The character class `[:\s]` appearing after each label in the source's
regexes. -/
def colonWS (c : Char) : Bool := c = ':' || pyWS c

/-- Case-insensitive prefix test (`re.IGNORECASE`); the pattern `pat` is
given lowercased. -/
def ciPrefixOf : List Char → List Char → Bool
  | [], _ => true
  | _ :: _, [] => false
  | p :: ps, c :: cs => (c.toLower = p) && ciPrefixOf ps cs

/-- Python `str.strip()` on a character list. -/
def pyStripL (l : List Char) : List Char :=
  ((l.dropWhile pyWS).reverse.dropWhile pyWS).reverse

/-- Python `str.split('\n')`: always returns at least one piece. -/
def splitNL : List Char → List (List Char)
  | [] => [[]]
  | '\n' :: rest => [] :: splitNL rest
  | c :: rest =>
    match splitNL rest with
    | [] => [[c]]
    | l :: ls => (c :: l) :: ls

/-- Helper for `re.sub(r'\s+', ' ', s)`: the flag records whether the
previous character belonged to a whitespace run already replaced. -/
def collapseWSAux : Bool → List Char → List Char
  | _, [] => []
  | prevWS, c :: rest =>
    if pyWS c then
      if prevWS then collapseWSAux true rest
      else ' ' :: collapseWSAux true rest
    else c :: collapseWSAux false rest

/-- `re.sub(r'\s+', ' ', s)`: each maximal whitespace run becomes one space. -/
def collapseWS (l : List Char) : List Char := collapseWSAux false l

/-- `if root_cause and not root_cause.endswith('.'): root_cause += '.'`. -/
def pyAddDot (l : List Char) : List Char :=
  if ¬ l = [] ∧ ¬ l.getLast? = some '.' then l ++ ['.'] else l

/-- `int` of a digit string. -/
def natOfDigits (l : List Char) : Nat :=
  l.foldl (fun n c => n * 10 + (c.toNat - '0'.toNat)) 0

/-- Lazy `(.+?)` with `re.DOTALL` followed by a zero-width lookahead:
returns the shortest nonempty prefix `g` such that `look` holds on the
remaining suffix (Python tries the shortest extension first). -/
def lazyCapture (look : List Char → Bool) : List Char → Option (List Char)
  | [] => none
  | c :: rest =>
    if look rest then some [c]
    else (lazyCapture look rest).map (fun g => c :: g)

/-- The lookahead `(?=\n\s*SUGGESTED|$)` of the root-cause regex, applied
to the remaining suffix.  Without `re.MULTILINE`, `$` matches at the end
of the text and just before a final newline. -/
def lookSuggested (t : List Char) : Bool :=
  t = [] || t = ['\n'] ||
    (match t with
     | '\n' :: u => ciPrefixOf ("suggested".data) (u.dropWhile pyWS)
     | _ => false)

/-- The lookahead `(?=CONFIDENCE|SEVERITY|$)` of the fixes regex. -/
def lookConfSev (t : List Char) : Bool :=
  t = [] || t = ['\n'] ||
    ciPrefixOf ("confidence".data) t || ciPrefixOf ("severity".data) t

/-- `[:\s]*(.+?)(?=look)` after a label: Python first consumes the maximal
`[:\s]` run greedily; `(.+?)` then always succeeds (both lookaheads accept
the end of text), except when the run reaches the end of the text, in which
case the engine gives one run character back to `(.+?)`. -/
def tailCapture (look : List Char → Bool) (rest : List Char) : Option (List Char) :=
  match lazyCapture look (rest.dropWhile colonWS) with
  | some g => some g
  | none =>
    match (rest.takeWhile colonWS).reverse with
    | [] => none
    | c :: _ => some [c]

/-- One attempt of `ROOT CAUSE[:\s]*(.+?)(?=\n\s*SUGGESTED|$)` at the
current position. -/
def rcMatchAt (s : List Char) : Option (List Char) :=
  if ciPrefixOf ("root cause".data) s then tailCapture lookSuggested (s.drop 10)
  else none

/-- `re.search` of the root-cause regex: leftmost successful match. -/
def rcSearch : List Char → Option (List Char)
  | [] => none
  | c :: rest =>
    match rcMatchAt (c :: rest) with
    | some g => some g
    | none => rcSearch rest

/-- One attempt of `SUGGESTED FIXES?[:\s]*(.+?)(?=CONFIDENCE|SEVERITY|$)`:
the greedy `S?` first tries to consume an `s`, falling back to the branch
without it. -/
def fixesMatchAt (s : List Char) : Option (List Char) :=
  if ciPrefixOf ("suggested fixe".data) s then
    let rest14 := s.drop 14
    let withS :=
      match rest14 with
      | c :: rest15 => if c.toLower = 's' then tailCapture lookConfSev rest15 else none
      | [] => none
    match withS with
    | some g => some g
    | none => tailCapture lookConfSev rest14
  else none

/-- `re.search` of the fixes regex: leftmost successful match. -/
def fixesSearch : List Char → Option (List Char)
  | [] => none
  | c :: rest =>
    match fixesMatchAt (c :: rest) with
    | some g => some g
    | none => fixesSearch rest

/-- The bullet marker `(?:\d+\.|\-|\*)`: digits can only be followed by the
literal dot (backtracking inside `\d+` cannot help since the dot is not a
digit); otherwise a hyphen or asterisk. -/
def markerEnd (u : List Char) : Option (List Char) :=
  let d := u.takeWhile Char.isDigit
  if ¬ d = [] then
    match u.drop d.length with
    | '.' :: v => some v
    | _ => none
  else
    match u with
    | '-' :: v => some v
    | '*' :: v => some v
    | _ => none

/-- Body of one bullet match: `\s*(?:\d+\.|\-|\*)\s*(.+)` (no `re.DOTALL`,
so `.` excludes newlines).  Both `\s*` are greedy; the second one gives
characters back only when the text ends in whitespace, in which case the
rightmost non-newline whitespace character becomes the group.  Returns the
group and the suffix where scanning resumes. -/
def bulletBody (t : List Char) : Option (List Char × List Char) :=
  match markerEnd (t.dropWhile pyWS) with
  | none => none
  | some v =>
    match v.dropWhile pyWS with
    | [] =>
      let rev := (v.takeWhile pyWS).reverse
      match rev.dropWhile (fun c => c = '\n') with
      | [] => none
      | c :: _ => some ([c], (rev.takeWhile (fun c => c = '\n')).reverse)
    | c :: r =>
      some ((c :: r).takeWhile (fun x => ¬ x = '\n'),
            (c :: r).dropWhile (fun x => ¬ x = '\n'))

/-- One attempt of `(?:^|\n)...` at the current position: with
`re.MULTILINE`, `^` matches at the start of the text and after a newline;
the `\n` alternative consumes a newline character. -/
def bulletAt (atStart : Bool) (t : List Char) : Option (List Char × List Char) :=
  let viaNL :=
    match t with
    | '\n' :: u => bulletBody u
    | _ => none
  if atStart then
    match bulletBody t with
    | some r => some r
    | none => viaNL
  else viaNL

/-- `re.findall(r'(?:^|\n)\s*(?:\d+\.|\-|\*)\s*(.+)', fixes_text, re.MULTILINE)`:
scan left to right, continuing after each non-overlapping match.  Each
iteration consumes at least one character, so the fuel `t.length` suffices. -/
def findBullets : Nat → Bool → List Char → List (List Char)
  | 0, _, _ => []
  | fuel + 1, atStart, t =>
    match bulletAt atStart t with
    | some (g, rest) => g :: findBullets fuel false rest
    | none =>
      match t with
      | [] => []
      | c :: u => findBullets fuel (c = '\n') u

/-- `re.search(r"CONFIDENCE[:\s]*(\d+)%?", content, re.IGNORECASE)`,
returning the captured integer: after the label and the greedy `[:\s]`
run there must be at least one digit (no earlier backtracking position
can start a digit), otherwise the search continues at the next position. -/
def confSearch : List Char → Option Nat
  | [] => none
  | c :: rest =>
    if ciPrefixOf ("confidence".data) (c :: rest) then
      let d := (((c :: rest).drop 10).dropWhile colonWS).takeWhile Char.isDigit
      if d = [] then confSearch rest else some (natOfDigits d)
    else confSearch rest

/-- `re.search(r"SEVERITY[:\s]*(low|medium|high)", content, re.IGNORECASE)`,
returning `group(1).lower()`. -/
def severitySearch : List Char → Option String
  | [] => none
  | c :: rest =>
    if ciPrefixOf ("severity".data) (c :: rest) then
      let q := ((c :: rest).drop 8).dropWhile colonWS
      if ciPrefixOf ("low".data) q then some "low"
      else if ciPrefixOf ("medium".data) q then some "medium"
      else if ciPrefixOf ("high".data) q then some "high"
      else severitySearch rest
    else severitySearch rest

/- ### `_extract_analysis_fields` -/

/-- The structured analysis dict built by `_extract_analysis_fields`.
`tokens_used` is stored untouched from the envelope, hence kept as `Json`. -/
structure Analysis where
  root_cause : String
  suggested_fixes : List String
  confidence : Nat
  severity : String
  tokens_used : Json

/-- The `root_cause` value after the labelled scan (lines 345-354 of the
source): captured text stripped, whitespace collapsed, `'.'` appended when
the text does not already end with `'.'`; `""` when the regex does not
match. -/
def rootCauseField (content : List Char) : List Char :=
  match rcSearch content with
  | none => []
  | some g => pyAddDot (collapseWS (pyStripL g))

/-- The `suggested_fixes` value after the labelled scan (lines 357-362):
each bullet item stripped, empty items dropped, order preserved; `[]` when
the regex does not match. -/
def fixesField (content : List Char) : List String :=
  match fixesSearch content with
  | none => []
  | some g =>
    ((findBullets g.length true g).map (fun l => String.mk (pyStripL l))).filter
      (fun s => ¬ s = "")

/-- The `confidence` value (lines 365-367): `min(100, max(0, int(...)))`
of the captured digits, default `50`. -/
def confidenceField (content : List Char) : Nat :=
  match confSearch content with
  | some n => min 100 (max 0 n)
  | none => 50

/-- The `severity` value (lines 370-372): captured keyword lowercased,
default `"medium"`. -/
def severityField (content : List Char) : String :=
  (severitySearch content).getD "medium"

/-- The fixed literal used when no line of the reply is long enough. -/
def unparseableMsg : String := "Failed to parse AI response. Please check the logs."

/-- The fixed generic fallback fixes list (lines 387-392). -/
def genericFixes : List String :=
  ["Review the error logs for PostgreSQL connection issues",
   "Ensure PostgreSQL server is running and accessible",
   "Check database connection configuration",
   "Verify network connectivity to database server"]

/-- The fallback line scan (lines 377-385): first line of the stripped
text whose stripped form is nonempty and longer than 10 characters. -/
def firstLongLine : List (List Char) → Option (List Char)
  | [] => none
  | line :: rest =>
    let t := pyStripL line
    if ¬ t = [] ∧ t.length > 10 then some t else firstLongLine rest

/-- `AIAnalyzer._extract_analysis_fields(content, tokens_used)`. -/
def extractAnalysisFields (content : String) (tokens_used : Json) : Analysis :=
  let rc := rootCauseField content.data
  let fixes := fixesField content.data
  if rc = [] ∧ fixes = [] then
    let lines := splitNL (pyStripL content.data)
    let rc2 :=
      if ¬ lines = [] then
        match firstLongLine lines with
        | some t => t
        | none => unparseableMsg.data
      else rc
    { root_cause := String.mk rc2, suggested_fixes := genericFixes,
      confidence := confidenceField content.data,
      severity := severityField content.data, tokens_used := tokens_used }
  else
    { root_cause := String.mk rc, suggested_fixes := fixes,
      confidence := confidenceField content.data,
      severity := severityField content.data, tokens_used := tokens_used }

/- ### `SUPPORTED_MODELS`, model resolution and analyzer construction -/

/-- One catalog entry.  The source dicts never define an `"alias"` key, so
`config.get("alias")` is `None` throughout, modelled by `alias := none`. -/
structure ModelConfig where
  endpoint : String
  max_tokens : Int
  cost_per_1k : Rat
  «alias» : Option String := none
deriving DecidableEq

/-- `AIAnalyzer.SUPPORTED_MODELS`, as an insertion-ordered association list
(Python dicts preserve insertion order and have unique keys). -/
def SUPPORTED_MODELS : List (String × List (String × ModelConfig)) :=
  [("openai",
    [("gpt-4o", { endpoint := "chat/completions", max_tokens := 128000, cost_per_1k := 0.005 }),
     ("gpt-4o-mini", { endpoint := "chat/completions", max_tokens := 128000, cost_per_1k := 0.00015 }),
     ("gpt-4o-2024-11-20", { endpoint := "chat/completions", max_tokens := 128000, cost_per_1k := 0.0025 }),
     ("gpt-4o-2024-08-06", { endpoint := "chat/completions", max_tokens := 128000, cost_per_1k := 0.0025 }),
     ("gpt-4o-mini-2024-07-18", { endpoint := "chat/completions", max_tokens := 128000, cost_per_1k := 0.00015 }),
     ("o1-preview", { endpoint := "chat/completions", max_tokens := 128000, cost_per_1k := 0.015 }),
     ("o1-preview-2024-09-12", { endpoint := "chat/completions", max_tokens := 128000, cost_per_1k := 0.015 }),
     ("o1-mini", { endpoint := "chat/completions", max_tokens := 128000, cost_per_1k := 0.003 }),
     ("o1-mini-2024-09-12", { endpoint := "chat/completions", max_tokens := 128000, cost_per_1k := 0.003 }),
     ("gpt-4-turbo", { endpoint := "chat/completions", max_tokens := 128000, cost_per_1k := 0.01 }),
     ("gpt-4-turbo-2024-04-09", { endpoint := "chat/completions", max_tokens := 128000, cost_per_1k := 0.01 })]),
   ("anthropic",
    [("claude-opus-4-20250514", { endpoint := "messages", max_tokens := 4096, cost_per_1k := 0.15 }),
     ("claude-sonnet-4-20250514", { endpoint := "messages", max_tokens := 4096, cost_per_1k := 0.03 }),
     ("claude-3-opus-20240229", { endpoint := "messages", max_tokens := 4096, cost_per_1k := 0.15 }),
     ("claude-3-5-sonnet-20241022", { endpoint := "messages", max_tokens := 8192, cost_per_1k := 0.03 }),
     ("claude-3-5-haiku-20241022", { endpoint := "messages", max_tokens := 8192, cost_per_1k := 0.0025 })]),
   ("gemini",
    [("gemini-2.0-flash", { endpoint := "generateContent", max_tokens := 1000000, cost_per_1k := 0.0005 }),
     ("gemini-2.0-pro-exp", { endpoint := "generateContent", max_tokens := 2000000, cost_per_1k := 0.002 }),
     ("gemini-1.5-pro", { endpoint := "generateContent", max_tokens := 2000000, cost_per_1k := 0.002 }),
     ("gemini-1.5-flash", { endpoint := "generateContent", max_tokens := 1000000, cost_per_1k := 0.0005 })])]

/-- `AIAnalyzer._resolve_model_name`: exact catalog names pass through;
otherwise the (dead, alias-free) alias scan; otherwise the name is
returned unchanged for the later validation step to reject. -/
def resolveModelName (models : List (String × ModelConfig)) (model : String) : String :=
  if (models.lookup model).isSome then model
  else
    match models.find? (fun e => e.2.«alias» = some model) with
    | some e => e.1
    | none => model

/-- The `defaults` dict of `AIAnalyzer._get_default_model`.  In the source a
provider outside the dict would raise `KeyError`; `__init__` only consults
it after validating the provider, so the `.getD ""` default is unreachable. -/
def DEFAULT_MODELS : List (String × String) :=
  [("openai", "gpt-4o-mini"),
   ("anthropic", "claude-3-5-sonnet-20241022"),
   ("gemini", "gemini-1.5-flash")]

def getDefaultModel (prov : String) : String := (DEFAULT_MODELS.lookup prov).getD ""

/-- `AIAnalyzer._setup_provider_config`: API base URL and headers per
provider.  For any other provider the source method sets no attributes;
that branch is unreachable after provider validation. -/
def setupProviderConfig (prov apiKey : String) : String × List (String × String) :=
  if prov = "openai" then
    ("https://api.openai.com/v1",
     [("Authorization", "Bearer " ++ apiKey), ("Content-Type", "application/json")])
  else if prov = "anthropic" then
    ("https://api.anthropic.com/v1",
     [("x-api-key", apiKey), ("Content-Type", "application/json"),
      ("anthropic-version", "2023-06-01")])
  else if prov = "gemini" then
    ("https://generativelanguage.googleapis.com/v1beta",
     [("Content-Type", "application/json")])
  else ("", [])

/-- The state of a successfully constructed `AIAnalyzer`. -/
structure Analyzer where
  provider : String
  max_tokens : Int
  api_key : String
  model : String
  model_config : ModelConfig
  api_base : String
  headers : List (String × String)
deriving DecidableEq

/-- Python `str.lower()` (ASCII; the catalog keys are ASCII). -/
def pyLower (s : String) : String := String.mk (s.data.map Char.toLower)

/-- `AIAnalyzer.__init__(provider, model, max_tokens)`.  The credential is
read from the environment by the source (`os.getenv`), modelled as the
explicit argument `apiKeyEnv`; Python's `if not self.api_key` also treats
an empty string as missing, and likewise `if model:` treats an empty
string like an absent model (default model used).  Check order preserved:
credential, provider, resolution/default, model validation, provider
config. -/
def initAnalyzer (provider : String) (model : Option String) (max_tokens : Int)
    (apiKeyEnv : Option String) : Except String Analyzer :=
  let prov := pyLower provider
  let key := apiKeyEnv.getD ""
  if key = "" then .error ("API key not found for " ++ provider)
  else
    match SUPPORTED_MODELS.lookup prov with
    | none => .error ("Unsupported provider: " ++ provider)
    | some models =>
      let mreq := model.getD ""
      let m := if mreq = "" then getDefaultModel prov else resolveModelName models mreq
      match models.lookup m with
      | none =>
        .error ("Unsupported model \x27" ++ m ++ "\x27 for provider \x27" ++ prov ++ "\x27")
      | some cfg =>
        .ok { provider := prov, max_tokens := max_tokens, api_key := key,
              model := m, model_config := cfg,
              api_base := (setupProviderConfig prov key).1,
              headers := (setupProviderConfig prov key).2 }

/- ### `_build_prompt` -/

/-- The `build_info` sub-dict of the analysis context; absent keys are
modelled as `none`. -/
structure BuildInfo where
  pipeline : Option String := none
  branch : Option String := none
  command : Option String := none
  exit_status : Option String := none
  phase : Option String := none

/-- The analysis context passed to `AIAnalyzer.analyze`. -/
structure BuildContext where
  build_info : BuildInfo := {}
  log_excerpt : String := ""

/-- The f-string text before the build-metadata lines. -/
def promptIntro : String :=
  "You are an expert DevOps engineer analyzing a CI/CD build failure. Provide specific, actionable solutions based on the error logs.\n\nBUILD INFORMATION:\n"

/-- The f-string text between the metadata lines and the embedded log
(the source writes the log inside a fenced block). -/
def promptLogHeader : String := "\n\nERROR LOG (last 100 lines):\n```\n"

/-- The f-string text after the embedded log.  The trailing
`  # Increased log size` of source line 197 is inside the f-string literal
and therefore part of the prompt. -/
def promptOutro : String :=
  "  # Increased log size\n```\n\nCRITICAL ANALYSIS RULES FOR GIT ERRORS:\n1. If you see \"fatal: unable to access\" with a GitHub URL, this is AUTHENTICATION failure, NOT network issues\n2. If you see \"HTTP/2 stream 0 was not closed cleanly: PROTOCOL_ERROR\" with GitHub, this means authentication failed\n3. If the log shows \"Using GitHub token for authentication\" followed by an error, the token is invalid/expired\n4. NEVER suggest \"check network connectivity\" for GitHub access errors - it\x27s always authentication\n\nANALYSIS INSTRUCTIONS:\nAnalyze the error logs carefully and provide your response in EXACTLY this format:\n\nROOT CAUSE: [Write a complete 1-2 sentence explanation. For GitHub errors, explicitly state it\x27s an authentication issue with the token]\n\nSUGGESTED FIXES:\n- [For GitHub auth errors: \"Regenerate GitHub personal access token at https://github.com/settings/tokens with \x27repo\x27 scope for private repositories\"]\n- [For GitHub auth errors: \"Verify GITHUB_TOKEN in .env file is correct and hasn\x27t expired - tokens show as \x27ghp_\x27 followed by random characters\"]\n- [For GitHub auth errors: \"Test token with: curl -H \x27Authorization: token YOUR_TOKEN\x27 https://api.github.com/user\"]\n\nCONFIDENCE: [0-100]%\nSEVERITY: [low/medium/high]\n\nImportant:\n- Be SPECIFIC about the actual error - don\x27t give generic advice\n- For GitHub/git errors, ALWAYS focus on authentication/token issues\n- Include exact commands and URLs where applicable"

/-- `AIAnalyzer._build_prompt(context)`: deterministic template
substitution.  `build_info.get(k, 'unknown')` for the first four fields,
`build_info.get('phase', 'command')` for the phase, and
`log_excerpt[:5000]` for the log. -/
def buildPrompt (ctx : BuildContext) : String :=
  promptIntro
  ++ ("- Pipeline: " ++ ctx.build_info.pipeline.getD "unknown")
  ++ ("\n- Branch: " ++ ctx.build_info.branch.getD "unknown")
  ++ ("\n- Command: " ++ ctx.build_info.command.getD "unknown")
  ++ ("\n- Exit Status: " ++ ctx.build_info.exit_status.getD "unknown")
  ++ ("\n- Phase: " ++ ctx.build_info.phase.getD "command")
  ++ promptLogHeader
  ++ String.mk (ctx.log_excerpt.data.take 5000)
  ++ promptOutro

/- ### Request construction and `_make_request` -/

/-- First-match field lookup in a JSON object (object keys are unique). -/
def jGet : Json → String → Option Json
  | .obj fields, k => (fields.find? (fun e => e.1 = k)).map (fun e => e.2)
  | _, _ => none

/-- The JSON body built by `AIAnalyzer._call_openai`. -/
def openaiRequestBody (a : Analyzer) (prompt : String) : Json :=
  .obj [("model", .str a.model),
        ("messages", .arr
          [.obj [("role", .str "system"),
                 ("content", .str "You are an expert DevOps engineer analyzing CI/CD failures.")],
           .obj [("role", .str "user"), ("content", .str prompt)]]),
        ("max_tokens", .num (min a.max_tokens a.model_config.max_tokens)),
        ("temperature", .fnum 0.1)]

/-- The JSON body built by `AIAnalyzer._call_anthropic`. -/
def anthropicRequestBody (a : Analyzer) (prompt : String) : Json :=
  .obj [("model", .str a.model),
        ("max_tokens", .num (min a.max_tokens a.model_config.max_tokens)),
        ("messages", .arr [.obj [("role", .str "user"), ("content", .str prompt)]])]

/-- The JSON body built by `AIAnalyzer._call_gemini`. -/
def geminiRequestBody (a : Analyzer) (prompt : String) : Json :=
  .obj [("contents", .arr [.obj [("parts", .arr [.obj [("text", .str prompt)]])]]),
        ("generationConfig",
         .obj [("maxOutputTokens", .num (min a.max_tokens a.model_config.max_tokens)),
               ("temperature", .fnum 0.1)])]

/-- Outcome of `AIAnalyzer._make_request` up to the network boundary:
`send` is the only constructor that performs network I/O (the
`urllib.request.urlopen` call); `rejected` is the `AIProviderError` raised
before any request object is even built. -/
inductive RequestOutcome where
  | rejected (msg : String) : RequestOutcome
  | send (url : String) (headers : List (String × String)) (body : Json) : RequestOutcome

/-- `AIAnalyzer._make_request(url, data, headers)`: the HTTPS-only guard
(`url.startswith("https://")`) runs before the request is prepared or
issued. -/
def makeRequest (url : String) (data : Json) (headers : List (String × String)) :
    RequestOutcome :=
  if "https://".data.isPrefixOf url.data then .send url headers data
  else .rejected "Only HTTPS URLs allowed"

/-- `AIAnalyzer._call_openai`: URL from base and catalog endpoint, default
headers. -/
def callOpenai (a : Analyzer) (prompt : String) : RequestOutcome :=
  makeRequest (a.api_base ++ "/" ++ a.model_config.endpoint)
    (openaiRequestBody a prompt) a.headers

/-- `AIAnalyzer._call_anthropic`. -/
def callAnthropic (a : Analyzer) (prompt : String) : RequestOutcome :=
  makeRequest (a.api_base ++ "/" ++ a.model_config.endpoint)
    (anthropicRequestBody a prompt) a.headers

/-- `AIAnalyzer._call_gemini`: the key travels as a query parameter and any
`Authorization` header is removed. -/
def callGemini (a : Analyzer) (prompt : String) : RequestOutcome :=
  makeRequest
    (a.api_base ++ "/models/" ++ a.model ++ ":" ++ a.model_config.endpoint
      ++ "?key=" ++ a.api_key)
    (geminiRequestBody a prompt)
    (a.headers.filter (fun e => ¬ e.1 = "Authorization"))

/-- Scheme of a URL: the text before the first `"://"`, lowercased;
`none` when no `"://"` occurs. -/
def urlSchemeAux (acc : List Char) : List Char → Option String
  | ':' :: '/' :: '/' :: _ => some (String.mk (acc.reverse.map Char.toLower))
  | [] => none
  | c :: rest => urlSchemeAux (c :: acc) rest

def urlScheme (url : String) : Option String := urlSchemeAux [] url.data

/- ### `_parse_response` -/

/-- Python `value[key]` for a string key: missing dict keys raise
`KeyError`; strings, lists and scalars raise `TypeError`. -/
def pyGetItemStr : Json → String → Except PyExc Json
  | .obj fields, k =>
    match fields.find? (fun e => e.1 = k) with
    | some e => .ok e.2
    | none => .error .keyError
  | _, _ => .error .typeError

/-- Python `value[i]` for a nonnegative integer index: list indexing with
`IndexError` out of range; string indexing yields a one-character string;
a dict raises `KeyError` (the integer key is never present in a JSON
object); scalars raise `TypeError`. -/
def pyGetItemNat : Json → Nat → Except PyExc Json
  | .arr xs, i =>
    match xs.drop i with
    | x :: _ => .ok x
    | [] => .error .indexError
  | .str s, i =>
    match s.data.drop i with
    | c :: _ => .ok (.str (String.mk [c]))
    | [] => .error .indexError
  | .obj _, _ => .error .keyError
  | _, _ => .error .typeError

/-- Python `value.get(key, default)`: only dicts have `.get`; anything else
raises `AttributeError`. -/
def pyGet (j : Json) (k : String) (default : Json) : Except PyExc Json :=
  match j with
  | .obj fields =>
    match fields.find? (fun e => e.1 = k) with
    | some e => .ok e.2
    | none => .ok default
  | _ => .error .attributeError

/-- The OpenAI reply path: `response["choices"][0]["message"]["content"]`
then `response.get("usage", {}).get("total_tokens", 0)`. -/
def openaiPath (response : Json) : Except PyExc (Json × Json) := do
  let choices ← pyGetItemStr response "choices"
  let c0 ← pyGetItemNat choices 0
  let msg ← pyGetItemStr c0 "message"
  let content ← pyGetItemStr msg "content"
  let usage ← pyGet response "usage" (.obj [])
  let tok ← pyGet usage "total_tokens" (.num 0)
  return (content, tok)

/-- The Anthropic reply path: `response["content"][0]["text"]` then
`response.get("usage", {}).get("output_tokens", 0)`. -/
def anthropicPath (response : Json) : Except PyExc (Json × Json) := do
  let cs ← pyGetItemStr response "content"
  let c0 ← pyGetItemNat cs 0
  let content ← pyGetItemStr c0 "text"
  let usage ← pyGet response "usage" (.obj [])
  let tok ← pyGet usage "output_tokens" (.num 0)
  return (content, tok)

/-- The Gemini reply path:
`response["candidates"][0]["content"]["parts"][0]["text"]` then
`response.get("usageMetadata", {}).get("totalTokenCount", 0)`. -/
def geminiPath (response : Json) : Except PyExc (Json × Json) := do
  let cands ← pyGetItemStr response "candidates"
  let c0 ← pyGetItemNat cands 0
  let content ← pyGetItemStr c0 "content"
  let parts ← pyGetItemStr content "parts"
  let p0 ← pyGetItemNat parts 0
  let text ← pyGetItemStr p0 "text"
  let usage ← pyGet response "usageMetadata" (.obj [])
  let tok ← pyGet usage "totalTokenCount" (.num 0)
  return (text, tok)

/-- The provider dispatch inside `_parse_response`'s `try` block. -/
def pathFor (provider : String) (response : Json) :
    Option (Except PyExc (Json × Json)) :=
  if provider = "openai" then some (openaiPath response)
  else if provider = "anthropic" then some (anthropicPath response)
  else if provider = "gemini" then some (geminiPath response)
  else none

/-- Outcome of `AIAnalyzer._parse_response`:
`ok` is the structured analysis; `invalidFormat` is the
`AIProviderError(f"Invalid response format: {str(e)}")` raised by the
`except (KeyError, IndexError)` clause; `unknownProvider` is the
`AIProviderError` raised by the `else` branch (not a `KeyError` or
`IndexError`, hence not caught); `crash` is an uncaught Python exception
escaping the method. -/
inductive ParseOutcome where
  | ok (a : Analysis) : ParseOutcome
  | invalidFormat (e : PyExc) : ParseOutcome
  | unknownProvider (p : String) : ParseOutcome
  | crash (e : PyExc) : ParseOutcome

/-- `AIAnalyzer._parse_response(response)`.  Only `KeyError` and
`IndexError` are converted to `AIProviderError`; in particular a
`TypeError` from indexing a wrong-typed node — or from handing a non-string
`content` to the `re` scans of `_extract_analysis_fields` — escapes
uncaught. -/
def parseResponse (provider : String) (response : Json) : ParseOutcome :=
  match pathFor provider response with
  | none => .unknownProvider provider
  | some (.error .keyError) => .invalidFormat .keyError
  | some (.error .indexError) => .invalidFormat .indexError
  | some (.error e) => .crash e
  | some (.ok (content, tok)) =>
    match content with
    | .str s => .ok (extractAnalysisFields s tok)
    | _ => .crash .typeError

/- ### Auxiliary predicates and lemmas -/

/-- Boolean prefix test on character lists. -/
def listPrefixB : List Char → List Char → Bool
  | [], _ => true
  | _ :: _, [] => false
  | a :: as, b :: bs => (a = b) && listPrefixB as bs

/-- Boolean contiguous-substring test on character lists. -/
def listInfixB (n : List Char) : List Char → Bool
  | [] => n.isEmpty
  | c :: rest => listPrefixB n (c :: rest) || listInfixB n rest

/-- `needle` occurs contiguously inside `hay`. -/
def containsStr (hay needle : String) : Prop :=
  ∃ p q : List Char, hay.data = p ++ needle.data ++ q

/-- Every whitespace character of the list is a plain space. -/
def wsOnlySpace : List Char → Bool
  | [] => true
  | c :: rest => (!(pyWS c) || c = ' ') && wsOnlySpace rest

/-- The list does not start with a whitespace character. -/
def headNotWS : List Char → Bool
  | [] => true
  | c :: _ => !(pyWS c)

/-- No two adjacent characters of the list are both whitespace. -/
def noAdjacentWS : List Char → Bool
  | [] => true
  | [_] => true
  | c :: d :: rest => !(pyWS c && pyWS d) && noAdjacentWS (d :: rest)

theorem listPrefixB_append_self (n q : List Char) : listPrefixB n (n ++ q) = true := by
  induction n with
  | nil => rfl
  | cons a as ih => simp [listPrefixB, ih]

theorem listInfixB_of_decomp (p n q : List Char) : listInfixB n (p ++ n ++ q) = true := by
  induction p with
  | nil =>
    cases n with
    | nil =>
      cases q with
      | nil => rfl
      | cons c r => simp [listInfixB, listPrefixB]
    | cons a as => simpa [listInfixB] using Or.inl (listPrefixB_append_self (a :: as) q)
  | cons a p ih => simpa [listInfixB] using Or.inr ih

theorem strData_append (s t : String) : (s ++ t).data = s.data ++ t.data := rfl

theorem splitNL_ne_nil (l : List Char) : ¬ splitNL l = [] := by
  induction l with
  | nil => simp [splitNL]
  | cons c rest ih =>
    unfold splitNL
    split <;> first
    | simp
    | (split <;> simp)

theorem firstLongLine_ne_nil (ls : List (List Char)) (t : List Char)
    (h : firstLongLine ls = some t) : ¬ t = [] := by
  induction ls with
  | nil => simp [firstLongLine] at h
  | cons line rest ih =>
    simp only [firstLongLine] at h
    split at h
    · rename_i hc
      cases h
      exact hc.1
    · exact ih h

theorem wsOnlySpace_collapseAux (l : List Char) (b : Bool) :
    wsOnlySpace (collapseWSAux b l) = true := by
  induction l generalizing b with
  | nil => rfl
  | cons c rest ih =>
    cases hc : pyWS c
    · simp [collapseWSAux, hc, wsOnlySpace, ih]
    · cases b <;> simp [collapseWSAux, hc, wsOnlySpace, ih]

theorem noAdjacentWS_cons (c : Char) (l : List Char)
    (hl : noAdjacentWS l = true) (h : pyWS c = false ∨ headNotWS l = true) :
    noAdjacentWS (c :: l) = true := by
  cases l with
  | nil => rfl
  | cons d rest =>
    have hd : pyWS c = false ∨ pyWS d = false := by
      rcases h with h | h
      · exact Or.inl h
      · simp [headNotWS] at h
        exact Or.inr h
    simp only [noAdjacentWS, hl, Bool.and_true]
    rcases hd with h | h <;> simp [h]

theorem collapseAux_props (l : List Char) :
    noAdjacentWS (collapseWSAux false l) = true
    ∧ noAdjacentWS (collapseWSAux true l) = true
    ∧ headNotWS (collapseWSAux true l) = true := by
  induction l with
  | nil => exact ⟨rfl, rfl, rfl⟩
  | cons c rest ih =>
    obtain ⟨ihf, iht, ihh⟩ := ih
    cases hc : pyWS c
    · refine ⟨?_, ?_, ?_⟩ <;> simp [collapseWSAux, hc, headNotWS]
      · exact noAdjacentWS_cons c _ ihf (Or.inl hc)
      · exact noAdjacentWS_cons c _ ihf (Or.inl hc)
    · refine ⟨?_, ?_, ?_⟩ <;> simp only [collapseWSAux, hc, if_true]
      · exact noAdjacentWS_cons ' ' _ iht (Or.inr ihh)
      · exact iht
      · exact ihh

theorem wsOnlySpace_append_dot (l : List Char) (h : wsOnlySpace l = true) :
    wsOnlySpace (l ++ ['.']) = true := by
  induction l with
  | nil => decide
  | cons c rest ih =>
    simp only [wsOnlySpace, Bool.and_eq_true] at h
    simpa [wsOnlySpace, h.1] using ih h.2

theorem noAdjacentWS_append_dot (l : List Char) (h : noAdjacentWS l = true) :
    noAdjacentWS (l ++ ['.']) = true := by
  induction l with
  | nil => decide
  | cons c rest ih =>
    cases rest with
    | nil =>
      have hdot : pyWS '.' = false := by decide
      simp [noAdjacentWS, hdot]
    | cons d r2 =>
      simp only [noAdjacentWS, Bool.and_eq_true] at h
      simpa [noAdjacentWS, h.1] using ih h.2

theorem pyAddDot_props (l : List Char)
    (hws : wsOnlySpace l = true) (hadj : noAdjacentWS l = true) :
    wsOnlySpace (pyAddDot l) = true ∧ noAdjacentWS (pyAddDot l) = true := by
  unfold pyAddDot
  split
  · exact ⟨wsOnlySpace_append_dot l hws, noAdjacentWS_append_dot l hadj⟩
  · exact ⟨hws, hadj⟩

theorem pyAddDot_getLast (l : List Char) (h : ¬ pyAddDot l = []) :
    (pyAddDot l).getLast? = some '.' := by
  by_cases hc : ¬ l = [] ∧ ¬ l.getLast? = some '.'
  · simp [pyAddDot, hc]
  · have hl : pyAddDot l = l := by simp [pyAddDot, hc]
    rw [hl] at h ⊢
    push_neg at hc
    exact hc h

/- ### Claims about `_extract_analysis_fields` -/

/-- C2: applying extraction to the well-formed reply yields
root_cause "Token expired.", the two fixes in order, confidence 85 and
severity "high". -/
theorem c2_round_trip :
    (extractAnalysisFields
      "ROOT CAUSE: Token expired.\nSUGGESTED FIXES:\n- Regenerate token\n- Check expiry\nCONFIDENCE: 85%\nSEVERITY: high"
      (Json.num 0)).root_cause = "Token expired."
    ∧ (extractAnalysisFields
      "ROOT CAUSE: Token expired.\nSUGGESTED FIXES:\n- Regenerate token\n- Check expiry\nCONFIDENCE: 85%\nSEVERITY: high"
      (Json.num 0)).suggested_fixes = ["Regenerate token", "Check expiry"]
    ∧ (extractAnalysisFields
      "ROOT CAUSE: Token expired.\nSUGGESTED FIXES:\n- Regenerate token\n- Check expiry\nCONFIDENCE: 85%\nSEVERITY: high"
      (Json.num 0)).confidence = 85
    ∧ (extractAnalysisFields
      "ROOT CAUSE: Token expired.\nSUGGESTED FIXES:\n- Regenerate token\n- Check expiry\nCONFIDENCE: 85%\nSEVERITY: high"
      (Json.num 0)).severity = "high" := by
  refine ⟨by decide, by decide, by decide, by decide⟩

/-- C1 (amended): when the four labelled scans leave both root_cause and
suggested_fixes empty, extraction returns the stripped first line whose
stripped length exceeds 10 characters (in original order), or the fixed
unparseable-output literal, together with the fixed generic fixes list; in
that fallback case root_cause is never empty.  (The claim's further
"extraction never returns an empty root_cause" is refuted by
`c1_empty_root_cause_cex`: with a fixes section but no root-cause label the
fallback does not trigger and root_cause stays empty.) -/
theorem c1_fallback (content : String) (tokens : Json)
    (h1 : rootCauseField content.data = [])
    (h2 : fixesField content.data = []) :
    (extractAnalysisFields content tokens).suggested_fixes = genericFixes
    ∧ (extractAnalysisFields content tokens).root_cause
        = (match firstLongLine (splitNL (pyStripL content.data)) with
           | some t => String.mk t
           | none => unparseableMsg)
    ∧ ¬ (extractAnalysisFields content tokens).root_cause = "" := by
  have hext : extractAnalysisFields content tokens
      = { root_cause :=
            String.mk (match firstLongLine (splitNL (pyStripL content.data)) with
                       | some t => t
                       | none => unparseableMsg.data),
          suggested_fixes := genericFixes,
          confidence := confidenceField content.data,
          severity := severityField content.data,
          tokens_used := tokens } := by
    unfold extractAnalysisFields
    simp only [h1, h2, and_self, if_true, splitNL_ne_nil, not_false_iff]
  refine ⟨by rw [hext], ?_, ?_⟩
  · rw [hext]
    cases hf : firstLongLine (splitNL (pyStripL content.data)) <;> simp
  · rw [hext]
    cases hf : firstLongLine (splitNL (pyStripL content.data)) with
    | none => simp [unparseableMsg]
    | some t =>
      have ht := firstLongLine_ne_nil _ _ hf
      simp only [hf]
      intro hcontra
      exact ht (by simpa [String.ext_iff] using hcontra)

/-- Witness for C1: a short unlabelled reply takes the fallback path. -/
theorem c1_fallback_witness :
    (extractAnalysisFields "hi" Json.null).suggested_fixes = genericFixes
    ∧ (extractAnalysisFields "hi" Json.null).root_cause
        = (match firstLongLine (splitNL (pyStripL ("hi").data)) with
           | some t => String.mk t
           | none => unparseableMsg)
    ∧ ¬ (extractAnalysisFields "hi" Json.null).root_cause = "" :=
  c1_fallback "hi" Json.null (by decide) (by decide)

/-- Counterexample to C1 as stated: a reply with a fixes section but no
root-cause label yields a nonempty fixes list, so the fallback does not
trigger and the returned root_cause is empty. -/
theorem c1_empty_root_cause_cex :
    (extractAnalysisFields "SUGGESTED FIXES:\n- Restart the server" Json.null).root_cause = ""
    ∧ ¬ (extractAnalysisFields "SUGGESTED FIXES:\n- Restart the server"
          Json.null).suggested_fixes = [] := by
  refine ⟨by decide, by decide⟩

/-- C4 (amended): when the root-cause scan matches, the captured text is
stripped and its internal whitespace runs (newlines included) are collapsed
to single spaces; a `'.'` is appended exactly when the text does not already
end in `'.'` — so whenever the scanned value is nonempty it ends in `'.'`,
and it is the returned root_cause.  (The claim's "a root cause ending in
'!' or '?' is not modified" is refuted by `c4_terminator_cex`: the source
only tests for `'.'`.) -/
theorem c4_root_cause_cleanup (content : String) (tokens : Json) (g : List Char)
    (hg : rcSearch content.data = some g) :
    (wsOnlySpace (rootCauseField content.data) = true
      ∧ noAdjacentWS (rootCauseField content.data) = true)
    ∧ (¬ rootCauseField content.data = [] →
        (rootCauseField content.data).getLast? = some '.'
        ∧ (extractAnalysisFields content tokens).root_cause
            = String.mk (rootCauseField content.data)) := by
  have hrc : rootCauseField content.data = pyAddDot (collapseWS (pyStripL g)) := by
    unfold rootCauseField
    rw [hg]
  constructor
  · rw [hrc]
    exact pyAddDot_props _ (wsOnlySpace_collapseAux _ false) (collapseAux_props _).1
  · intro hne
    refine ⟨by rw [hrc] at hne ⊢; exact pyAddDot_getLast _ hne, ?_⟩
    unfold extractAnalysisFields
    simp [hne]

/-- Witness for C4: a reply whose root cause spans two lines and ends in
`'!'` is collapsed to single spaces and gains a trailing `'.'`. -/
theorem c4_root_cause_cleanup_witness :
    (wsOnlySpace (rootCauseField ("ROOT CAUSE: Token\nexpired!").data) = true
      ∧ noAdjacentWS (rootCauseField ("ROOT CAUSE: Token\nexpired!").data) = true)
    ∧ ((rootCauseField ("ROOT CAUSE: Token\nexpired!").data).getLast? = some '.'
        ∧ (extractAnalysisFields "ROOT CAUSE: Token\nexpired!" Json.null).root_cause
            = String.mk (rootCauseField ("ROOT CAUSE: Token\nexpired!").data)) :=
  have h := c4_root_cause_cleanup "ROOT CAUSE: Token\nexpired!" Json.null
    ("Token\nexpired!".data) (by decide)
  ⟨h.1, h.2 (by decide)⟩

/-- Counterexample to C4 as stated: a captured root cause ending in `'!'`
is modified — the source appends `'.'` unless the text already ends in
`'.'`, so `"Build failed!"` becomes `"Build failed!."`. -/
theorem c4_terminator_cex :
    (extractAnalysisFields "ROOT CAUSE: Build failed!" Json.null).root_cause
      = "Build failed!." := by
  decide

/-- `confidence` is independent of the root-cause/fixes fallback. -/
theorem extract_confidence_eq (content : String) (tokens : Json) :
    (extractAnalysisFields content tokens).confidence = confidenceField content.data := by
  by_cases hc : rootCauseField content.data = [] ∧ fixesField content.data = []
  · simp [extractAnalysisFields, hc]
  · simp [extractAnalysisFields, hc]

/-- C6: whenever the confidence scan captures an integer `n`, the extracted
confidence is `min(100, max(0, n))` — so values above 100 are clamped to
100 — and when no `CONFIDENCE` label with an integer is present the
extracted confidence is 50. -/
theorem c6_confidence_clamp (content : String) (tokens : Json) :
    (∀ n : Nat, confSearch content.data = some n →
        (extractAnalysisFields content tokens).confidence = min 100 (max 0 n))
    ∧ (confSearch content.data = none →
        (extractAnalysisFields content tokens).confidence = 50) := by
  constructor
  · intro n hn
    rw [extract_confidence_eq]
    unfold confidenceField
    rw [hn]
  · intro hn
    rw [extract_confidence_eq]
    unfold confidenceField
    rw [hn]

/-- Witness for C6: `"CONFIDENCE: 150%"` clamps to 100; a label-free text
defaults to 50. -/
theorem c6_confidence_clamp_witness :
    (extractAnalysisFields "CONFIDENCE: 150%" Json.null).confidence = 100
    ∧ (extractAnalysisFields "hello" Json.null).confidence = 50 :=
  ⟨((c6_confidence_clamp "CONFIDENCE: 150%" Json.null).1 150 (by decide)).trans (by decide),
   (c6_confidence_clamp "hello" Json.null).2 (by decide)⟩

/-- `RequestOutcome.send` recogniser: the only outcome that performs
network I/O. -/
def isSend : RequestOutcome → Bool
  | .send _ _ _ => true
  | .rejected _ => false

theorem urlScheme_of_https (url : String) (rest : List Char)
    (h : url.data = "https://".data ++ rest) : urlScheme url = some "https" := by
  unfold urlScheme
  rw [h]
  rfl

theorem not_https_no_prefix (url : String) (h : ¬ urlScheme url = some "https") :
    "https://".data.isPrefixOf url.data = false := by
  cases hp : "https://".data.isPrefixOf url.data
  · rfl
  · exfalso
    have hpre : "https://".data <+: url.data := by
      rw [← List.isPrefixOf_iff_prefix]
      exact hp
    obtain ⟨rest, hrest⟩ := hpre
    exact h (urlScheme_of_https url rest hrest.symm)

/-- C7: a URL whose scheme is not HTTPS is rejected by `_make_request`
with the insecure-transport error, and no network request outcome is ever
produced for it — the guard runs before any I/O. -/
theorem c7_insecure_transport (url : String) (data : Json)
    (headers : List (String × String)) (h : ¬ urlScheme url = some "https") :
    makeRequest url data headers = .rejected "Only HTTPS URLs allowed"
    ∧ isSend (makeRequest url data headers) = false := by
  have hp := not_https_no_prefix url h
  constructor
  · simp [makeRequest, hp]
  · simp [makeRequest, hp, isSend]

/-- Witness for C7: a plain-HTTP URL is rejected without any send. -/
theorem c7_insecure_transport_witness :
    makeRequest "http://api.openai.com/v1/chat/completions" Json.null []
      = .rejected "Only HTTPS URLs allowed"
    ∧ isSend (makeRequest "http://api.openai.com/v1/chat/completions" Json.null [])
      = false :=
  c7_insecure_transport "http://api.openai.com/v1/chat/completions" Json.null []
    (by decide)

/-- C8 (amended): a reply-path failure caused by a missing dictionary key
or an out-of-range list index is always classified as the invalid-response
`AIProviderError` — `_parse_response` never lets a `KeyError` or
`IndexError` escape.  (The claim's "any absent reply path fails with a
classified error, never a crash" is refuted by `c8_type_mismatch_cex`: a
wrong-typed node along the path raises an uncaught `TypeError`.) -/
theorem c8_envelope_errors (provider : String) (response : Json) :
    (¬ parseResponse provider response = .crash .keyError
      ∧ ¬ parseResponse provider response = .crash .indexError)
    ∧ (pathFor provider response = some (.error .keyError) →
        parseResponse provider response = .invalidFormat .keyError)
    ∧ (pathFor provider response = some (.error .indexError) →
        parseResponse provider response = .invalidFormat .indexError) := by
  refine ⟨⟨?_, ?_⟩, ?_, ?_⟩
  · unfold parseResponse
    cases hp : pathFor provider response with
    | none => simp
    | some r =>
      match r with
      | .error .keyError => simp
      | .error .indexError => simp
      | .error .typeError => simp
      | .error .attributeError => simp
      | .ok (c, t) => cases c <;> simp
  · unfold parseResponse
    cases hp : pathFor provider response with
    | none => simp
    | some r =>
      match r with
      | .error .keyError => simp
      | .error .indexError => simp
      | .error .typeError => simp
      | .error .attributeError => simp
      | .ok (c, t) => cases c <;> simp
  · intro hk
    unfold parseResponse
    rw [hk]
  · intro hk
    unfold parseResponse
    rw [hk]

/-- Witness for C8: a missing `choices` key and an empty `choices` list
are both classified, not crashes. -/
theorem c8_envelope_errors_witness :
    parseResponse "openai" (Json.obj []) = .invalidFormat .keyError
    ∧ parseResponse "openai" (Json.obj [("choices", Json.arr [])])
        = .invalidFormat .indexError :=
  ⟨(c8_envelope_errors "openai" (Json.obj [])).2.1 rfl,
   (c8_envelope_errors "openai" (Json.obj [("choices", Json.arr [])])).2.2 rfl⟩

/-- Counterexample to C8 as stated: for the OpenAI variant the envelope
`{"choices": [[]]}` has no reply at the expected path, yet parsing crashes
with an uncaught `TypeError` (indexing a list with the string `"message"`)
instead of failing with the classified error. -/
theorem c8_type_mismatch_cex :
    parseResponse "openai" (Json.obj [("choices", Json.arr [Json.arr []])])
      = .crash .typeError := rfl

/-- Construction with a missing credential always yields the
missing-credential error, whatever the provider. -/
theorem initAnalyzer_no_key (p : String) (m : Option String) (t : Int) :
    initAnalyzer p m t none = .error ("API key not found for " ++ p) := rfl

/-- Construction with an empty credential also yields the
missing-credential error (Python truthiness of `if not self.api_key`). -/
theorem initAnalyzer_empty_key (p : String) (m : Option String) (t : Int) :
    initAnalyzer p m t (some "") = .error ("API key not found for " ++ p) := rfl

/-- The two `AIProviderError` messages of the credential and provider
checks can never coincide (they differ in their first character). -/
theorem cred_msg_ne_provider_msg (p : String) :
    ¬ ("API key not found for " ++ p) = ("Unsupported provider: " ++ p) := by
  intro h
  have h2 : (some 'A' : Option Char) = some 'U' :=
    congrArg (fun s : String => s.data.head?) h
  simp at h2

/-- C10: `__init__` checks the credential before validating the provider:
with no credential, construction fails with the missing-credential error
for every provider string (unknown ones included); consequently the
unsupported-provider error can only arise when a nonempty credential was
supplied. -/
theorem c10_credential_before_provider :
    (∀ (p : String) (m : Option String) (t : Int),
        initAnalyzer p m t none = .error ("API key not found for " ++ p))
    ∧ (∀ (p : String) (m : Option String) (t : Int) (k : Option String),
        initAnalyzer p m t k = .error ("Unsupported provider: " ++ p) →
        ∃ key, k = some key ∧ ¬ key = "") := by
  constructor
  · intro p m t
    exact initAnalyzer_no_key p m t
  · intro p m t k h
    match k with
    | none =>
      rw [initAnalyzer_no_key p m t] at h
      exact absurd (Except.error.inj h) (cred_msg_ne_provider_msg p)
    | some key =>
      by_cases hk : key = ""
      · subst hk
        rw [initAnalyzer_empty_key p m t] at h
        exact absurd (Except.error.inj h) (cred_msg_ne_provider_msg p)
      · exact ⟨key, rfl, hk⟩

/-- Witness for C10: an unknown provider without a credential fails with
the missing-credential error; with a credential it fails with the
unsupported-provider error, exhibiting the nonempty key. -/
theorem c10_credential_before_provider_witness :
    initAnalyzer "bogus" none 7 none = .error ("API key not found for " ++ "bogus")
    ∧ ∃ key, (some "k" : Option String) = some key ∧ ¬ key = "" :=
  ⟨c10_credential_before_provider.1 "bogus" none 7,
   c10_credential_before_provider.2 "bogus" none 7 (some "k") rfl⟩

/-- The catalog keys are exactly the three lowercase provider names. -/
theorem supported_keys (p : String) (models : List (String × ModelConfig))
    (hp : SUPPORTED_MODELS.lookup p = some models) :
    p = "openai" ∨ p = "anthropic" ∨ p = "gemini" := by
  by_contra hc
  push_neg at hc
  obtain ⟨h1, h2, h3⟩ := hc
  have b1 : (p == "openai") = false := beq_eq_false_iff_ne.mpr h1
  have b2 : (p == "anthropic") = false := beq_eq_false_iff_ne.mpr h2
  have b3 : (p == "gemini") = false := beq_eq_false_iff_ne.mpr h3
  simp [SUPPORTED_MODELS, List.lookup, b1, b2, b3] at hp

/-- Catalog keys are already lowercase. -/
theorem pyLower_of_supported (p : String) (models : List (String × ModelConfig))
    (hp : SUPPORTED_MODELS.lookup p = some models) : pyLower p = p := by
  rcases supported_keys p models hp with h | h | h <;> subst h <;> rfl

/-- A model name already in the catalog resolves to itself. -/
theorem resolveModelName_mem (models : List (String × ModelConfig)) (m : String)
    (h : (models.lookup m).isSome = true) : resolveModelName models m = m := by
  unfold resolveModelName
  simp [h]

/-- No provider's catalog contains an empty model id. -/
theorem supported_no_empty_model (p : String) (models : List (String × ModelConfig))
    (hp : SUPPORTED_MODELS.lookup p = some models) : models.lookup "" = none := by
  rcases supported_keys p models hp with h | h | h <;> subst h <;>
    (have h4 : _ = models := Option.some.inj hp; subst h4; decide)

/-- C9: with a nonempty credential, every catalogued (provider, model)
pair constructs successfully and keeps the model id unchanged; any
nonempty requested model whose resolution is not in the provider's catalog
fails validation with the unsupported-model error naming both the model
and the provider; and an empty requested model is falsy for `if model:`,
so it counts as no request at all — the default model is used and, when
catalogued, construction succeeds. -/
theorem c9_resolution_validation :
    (∀ (p : String) (models : List (String × ModelConfig)) (m : String)
        (cfg : ModelConfig) (t : Int) (key : String),
        SUPPORTED_MODELS.lookup p = some models →
        models.lookup m = some cfg →
        ¬ key = "" →
        ∃ a, initAnalyzer p (some m) t (some key) = .ok a ∧ a.model = m)
    ∧ (∀ (p : String) (models : List (String × ModelConfig)) (m : String)
        (t : Int) (key : String),
        SUPPORTED_MODELS.lookup p = some models →
        ¬ key = "" →
        ¬ m = "" →
        models.lookup (resolveModelName models m) = none →
        initAnalyzer p (some m) t (some key)
          = .error ("Unsupported model \x27" ++ resolveModelName models m
              ++ "\x27 for provider \x27" ++ p ++ "\x27"))
    ∧ (∀ (p : String) (models : List (String × ModelConfig))
        (cfg : ModelConfig) (t : Int) (key : String),
        SUPPORTED_MODELS.lookup p = some models →
        models.lookup (getDefaultModel p) = some cfg →
        ¬ key = "" →
        ∃ a, initAnalyzer p (some "") t (some key) = .ok a
          ∧ a.model = getDefaultModel p) := by
  refine ⟨?_, ?_, ?_⟩
  · intro p models m cfg t key hp hm hk
    have hl : pyLower p = p := pyLower_of_supported p models hp
    have hm0 : ¬ m = "" := by
      intro he
      rw [he, supported_no_empty_model p models hp] at hm
      exact Option.noConfusion hm
    have hres : resolveModelName models m = m :=
      resolveModelName_mem models m (by simp [hm])
    refine ⟨{ provider := p, max_tokens := t, api_key := key, model := m,
              model_config := cfg,
              api_base := (setupProviderConfig p key).1,
              headers := (setupProviderConfig p key).2 }, ?_, rfl⟩
    simp only [initAnalyzer, Option.getD_some, hl, hp, hres, hm]
    rw [if_neg hk, if_neg hm0, hm]
  · intro p models m t key hp hk hm0 hres
    have hl : pyLower p = p := pyLower_of_supported p models hp
    simp only [initAnalyzer, Option.getD_some, hl, hp]
    rw [if_neg hk, if_neg hm0, hres]
  · intro p models cfg t key hp hdef hk
    have hl : pyLower p = p := pyLower_of_supported p models hp
    refine ⟨{ provider := p, max_tokens := t, api_key := key,
              model := getDefaultModel p, model_config := cfg,
              api_base := (setupProviderConfig p key).1,
              headers := (setupProviderConfig p key).2 }, ?_, rfl⟩
    simp only [initAnalyzer, Option.getD_some, hl, hp, if_true]
    rw [if_neg hk, hdef]

/-- Witness for C9: a catalogued Anthropic model passes through unchanged;
the unknown model "gpt-5" is rejected with the error naming model and
provider; the empty model string falls back to the OpenAI default. -/
theorem c9_resolution_validation_witness :
    (∃ a, initAnalyzer "anthropic" (some "claude-3-opus-20240229") 5 (some "k") = .ok a
        ∧ a.model = "claude-3-opus-20240229")
    ∧ initAnalyzer "openai" (some "gpt-5") 5 (some "k")
        = .error "Unsupported model \x27gpt-5\x27 for provider \x27openai\x27"
    ∧ (∃ a, initAnalyzer "openai" (some "") 5 (some "k") = .ok a
        ∧ a.model = getDefaultModel "openai") :=
  ⟨c9_resolution_validation.1 "anthropic" _ "claude-3-opus-20240229" _ 5 "k" rfl rfl
      (by decide),
   (c9_resolution_validation.2.1 "openai" _ "gpt-5" 5 "k" rfl (by decide) (by decide)
      rfl).trans rfl,
   c9_resolution_validation.2.2 "openai" _ _ 5 "k" rfl rfl (by decide)⟩

/-- Inversion of a successful construction: the stored `model_config` is
the catalog entry of the stored provider and model, and the requested
token bound is stored unchanged. -/
theorem initAnalyzer_ok_spec (p : String) (m : Option String) (t : Int)
    (k : Option String) (a : Analyzer)
    (h : initAnalyzer p m t k = .ok a) :
    (∃ models, SUPPORTED_MODELS.lookup a.provider = some models
        ∧ models.lookup a.model = some a.model_config)
    ∧ a.max_tokens = t := by
  simp only [initAnalyzer] at h
  split at h
  · simp at h
  · split at h
    · simp at h
    · split at h
      · simp at h
      · rename_i hkey xo models hmodels xc cfg hcfg
        simp only [Except.ok.injEq] at h
        subst h
        exact ⟨⟨models, hmodels, hcfg⟩, rfl⟩

/-- C5: for every analyzer produced by construction and every prompt, the
token limit placed in each provider's request body is exactly
`min(requested max_tokens, catalog max_tokens)`, which never exceeds the
catalog entry's bound; the stored `model_config` is that catalog entry and
the stored `max_tokens` is the requested bound. -/
theorem c5_token_cap (p : String) (m : Option String) (t : Int)
    (k : Option String) (a : Analyzer) (prompt : String)
    (h : initAnalyzer p m t k = .ok a) :
    (jGet (openaiRequestBody a prompt) "max_tokens"
        = some (.num (min a.max_tokens a.model_config.max_tokens))
      ∧ jGet (anthropicRequestBody a prompt) "max_tokens"
        = some (.num (min a.max_tokens a.model_config.max_tokens))
      ∧ (jGet (geminiRequestBody a prompt) "generationConfig").bind
          (fun g => jGet g "maxOutputTokens")
        = some (.num (min a.max_tokens a.model_config.max_tokens)))
    ∧ min a.max_tokens a.model_config.max_tokens ≤ a.model_config.max_tokens
    ∧ (∃ models, SUPPORTED_MODELS.lookup a.provider = some models
        ∧ models.lookup a.model = some a.model_config)
    ∧ a.max_tokens = t :=
  ⟨⟨rfl, rfl, rfl⟩, min_le_right _ _, (initAnalyzer_ok_spec p m t k a h).1,
   (initAnalyzer_ok_spec p m t k a h).2⟩

/-- The analyzer produced by a default OpenAI construction. -/
def c5Analyzer : Analyzer :=
  { provider := "openai", max_tokens := 1000, api_key := "k", model := "gpt-4o-mini",
    model_config := { endpoint := "chat/completions", max_tokens := 128000,
                      cost_per_1k := 0.00015 },
    api_base := "https://api.openai.com/v1",
    headers := [("Authorization", "Bearer " ++ "k"),
                ("Content-Type", "application/json")] }

/-- Witness for C5 at the default OpenAI configuration. -/
theorem c5_token_cap_witness :
    (jGet (openaiRequestBody c5Analyzer "p") "max_tokens"
        = some (.num (min c5Analyzer.max_tokens c5Analyzer.model_config.max_tokens))
      ∧ jGet (anthropicRequestBody c5Analyzer "p") "max_tokens"
        = some (.num (min c5Analyzer.max_tokens c5Analyzer.model_config.max_tokens))
      ∧ (jGet (geminiRequestBody c5Analyzer "p") "generationConfig").bind
          (fun g => jGet g "maxOutputTokens")
        = some (.num (min c5Analyzer.max_tokens c5Analyzer.model_config.max_tokens)))
    ∧ min c5Analyzer.max_tokens c5Analyzer.model_config.max_tokens
        ≤ c5Analyzer.model_config.max_tokens
    ∧ (∃ models, SUPPORTED_MODELS.lookup c5Analyzer.provider = some models
        ∧ models.lookup c5Analyzer.model = some c5Analyzer.model_config)
    ∧ c5Analyzer.max_tokens = 1000 :=
  c5_token_cap "openai" none 1000 (some "k") c5Analyzer "p" rfl

theorem listPrefixB_eq (n : List Char) : ∀ l : List Char,
    listPrefixB n l = true → ∃ q, l = n ++ q := by
  induction n with
  | nil => exact fun l _ => ⟨l, rfl⟩
  | cons a as ih =>
    intro l h
    cases l with
    | nil => simp [listPrefixB] at h
    | cons b bs =>
      simp only [listPrefixB, Bool.and_eq_true, decide_eq_true_eq] at h
      obtain ⟨q, hq⟩ := ih bs h.2
      exact ⟨q, by rw [h.1, hq]; rfl⟩

theorem listInfixB_sound (n : List Char) : ∀ h : List Char,
    listInfixB n h = true → ∃ p q, h = p ++ n ++ q := by
  intro h
  induction h with
  | nil =>
    intro hi
    simp only [listInfixB, List.isEmpty_iff] at hi
    exact ⟨[], [], by simp [hi]⟩
  | cons c rest ih =>
    intro hi
    simp only [listInfixB, Bool.or_eq_true] at hi
    rcases hi with hp | hr
    · obtain ⟨q, hq⟩ := listPrefixB_eq n (c :: rest) hp
      exact ⟨[], q, by simpa using hq⟩
    · obtain ⟨p, q, hpq⟩ := ih hr
      exact ⟨c :: p, q, by simp [hpq]⟩

theorem containsStr_self (s : String) : containsStr s s := ⟨[], [], by simp⟩

theorem containsStr_append_left (t s n : String) (h : containsStr s n) :
    containsStr (t ++ s) n := by
  obtain ⟨p, q, hp⟩ := h
  exact ⟨t.data ++ p, q, by simp [strData_append, hp, List.append_assoc]⟩

theorem containsStr_append_right (s t n : String) (h : containsStr s n) :
    containsStr (s ++ t) n := by
  obtain ⟨p, q, hp⟩ := h
  exact ⟨p, q ++ t.data, by simp [strData_append, hp, List.append_assoc]⟩

/-- C3 (amended): for every build context the rendered prompt embeds each
metadata line; `pipeline`, `branch`, `command` and `exit_status` default to
the literal `"unknown"` when absent, while `phase` defaults to the literal
`"command"`.  (The claim's "phase defaults to unknown" is refuted by
`c3_phase_default_cex`.) -/
theorem c3_prompt_embeds_fields (ctx : BuildContext) :
    containsStr (buildPrompt ctx) ("- Pipeline: " ++ ctx.build_info.pipeline.getD "unknown")
    ∧ containsStr (buildPrompt ctx) ("\n- Branch: " ++ ctx.build_info.branch.getD "unknown")
    ∧ containsStr (buildPrompt ctx) ("\n- Command: " ++ ctx.build_info.command.getD "unknown")
    ∧ containsStr (buildPrompt ctx)
        ("\n- Exit Status: " ++ ctx.build_info.exit_status.getD "unknown")
    ∧ containsStr (buildPrompt ctx) ("\n- Phase: " ++ ctx.build_info.phase.getD "command") := by
  refine ⟨?_, ?_, ?_, ?_, ?_⟩
  · exact containsStr_append_right _ _ _ (containsStr_append_right _ _ _
      (containsStr_append_right _ _ _ (containsStr_append_right _ _ _
        (containsStr_append_right _ _ _ (containsStr_append_right _ _ _
          (containsStr_append_right _ _ _
            (containsStr_append_left _ _ _ (containsStr_self _))))))))
  · exact containsStr_append_right _ _ _ (containsStr_append_right _ _ _
      (containsStr_append_right _ _ _ (containsStr_append_right _ _ _
        (containsStr_append_right _ _ _ (containsStr_append_right _ _ _
          (containsStr_append_left _ _ _ (containsStr_self _)))))))
  · exact containsStr_append_right _ _ _ (containsStr_append_right _ _ _
      (containsStr_append_right _ _ _ (containsStr_append_right _ _ _
        (containsStr_append_right _ _ _
          (containsStr_append_left _ _ _ (containsStr_self _))))))
  · exact containsStr_append_right _ _ _ (containsStr_append_right _ _ _
      (containsStr_append_right _ _ _ (containsStr_append_right _ _ _
        (containsStr_append_left _ _ _ (containsStr_self _)))))
  · exact containsStr_append_right _ _ _ (containsStr_append_right _ _ _
      (containsStr_append_right _ _ _
        (containsStr_append_left _ _ _ (containsStr_self _))))

set_option maxRecDepth 100000 in
set_option maxHeartbeats 1000000 in
/-- Counterexample to C3 as stated: with `phase` absent the prompt renders
`- Phase: command`, not `- Phase: unknown` — the phase default is the
literal `"command"`. -/
theorem c3_phase_default_cex :
    containsStr (buildPrompt {}) "\n- Phase: command"
    ∧ ¬ containsStr (buildPrompt {}) "\n- Phase: unknown" := by
  constructor
  · obtain ⟨p, q, h⟩ :=
      listInfixB_sound ("\n- Phase: command".data) ((buildPrompt {}).data) (by decide)
    exact ⟨p, q, h⟩
  · intro hc
    obtain ⟨p, q, h⟩ := hc
    have htrue : listInfixB ("\n- Phase: unknown".data) ((buildPrompt {}).data) = true := by
      rw [h]
      exact listInfixB_of_decomp p _ q
    have hfalse : listInfixB ("\n- Phase: unknown".data) ((buildPrompt {}).data) = false := by
      decide
    rw [hfalse] at htrue
    exact Bool.noConfusion htrue
